import Mathlib

/-!
Verification development for the parquet-viewer tabular engine.

Shallow embedding of the program's core modules:
* `schema.py`   — type mapping, schema serialization, bidirectional schema diff;
* `pandas_model.py` — `PaginationProxyModel` (page arithmetic and navigation);
* `workers.py`  — `DataLoaderWorker.run` (load outcome signalling);
* `main_window.py` — the `_on_data_loaded` / `_on_load_error` state transitions
  and the `_compare_json_schemas` control flow.

Python machine-level primitives (`str.lower`, `str.startswith`, `dict`
comprehensions, `enumerate`) are modelled by small executable functions below,
each documented with the Python construct it stands for.
-/

namespace ParquetViewer

/-! ### Models of the Python primitives used by the source -/

/-- Model of Python `str.lower()` on the ASCII letter range (the behaviour of
`Char.toLower`); dtype names handled by the program are ASCII. -/
def pyLower (s : String) : String := ⟨s.data.map Char.toLower⟩

/-- Model of Python `s.startswith(p)`. -/
def pyStartswith (s p : String) : Bool := p.data.isPrefixOf s.data

/-- Model of a Python `dict` built from key/value `pairs` in order (a later
pair with the same key overrides an earlier one), queried by key `k`.
`(dictLookup pairs k).isSome` models `k in d`, `dictLookup pairs k = some v`
models `d[k] == v`, and `dictLookup pairs k` models `d.get(k)`. -/
def dictLookup {α : Type} (pairs : List (String × α)) (k : String) : Option α :=
  match pairs with
  | [] => none
  | (k', v) :: rest =>
    match dictLookup rest k with
    | some v' => some v'
    | none => if k' == k then some v else none

/-- Model of Python `enumerate(l, i)`. -/
def enumerateFrom {α : Type} (i : Nat) : List α → List (Nat × α)
  | [] => []
  | a :: as => (i, a) :: enumerateFrom (i + 1) as

/-- Model of Python `enumerate(l)`. -/
def enumerate {α : Type} (l : List α) : List (Nat × α) := enumerateFrom 0 l

/-! ### `schema.py` -/

/-- `_SPARK_TYPE_MAP` from `schema.py` (lines 13–23). -/
def SPARK_TYPE_MAP : List (String × String) :=
  [("int64", "integer"), ("int32", "integer"), ("int16", "integer"),
   ("int8", "integer"),
   ("uint8", "integer"), ("uint16", "integer"), ("uint32", "integer"),
   ("uint64", "integer"),
   ("integer", "integer"), ("int", "integer"),
   ("float64", "double"), ("float32", "double"), ("float16", "double"),
   ("double", "double"),
   ("object", "string"), ("string", "string"),
   ("bool", "boolean"), ("boolean", "boolean"),
   ("datetime64[ns]", "timestamp"), ("datetime64", "timestamp"),
   ("timedelta64[ns]", "string"),
   ("category", "string")]

/-- `get_spark_type` from `schema.py` (lines 26–37): exact table lookup on the
lowercased name, then the `int`/`uint`, `float`, `datetime` prefix rules
(Python `startswith(('int', 'uint'))` is the disjunction of the two), else
`"string"`. -/
def get_spark_type (dtype_str : String) : String :=
  let dtype_lower := pyLower dtype_str
  match dictLookup SPARK_TYPE_MAP dtype_lower with
  | some t => t
  | none =>
    if pyStartswith dtype_lower "int" || pyStartswith dtype_lower "uint" then
      "integer"
    else if pyStartswith dtype_lower "float" then "double"
    else if pyStartswith dtype_lower "datetime" then "timestamp"
    else "string"

/-- One record of the `schema` array of a serialized schema, as written by
`schema_to_json_dict` (keys `column_name`, `pandas_type`, `spark_type`). -/
structure ColumnEntry where
  column_name : String
  pandas_type : String
  spark_type : String
deriving DecidableEq

/-- `SchemaComparisonResult` from `schema.py` (lines 66–87). -/
structure SchemaComparisonResult where
  only_in_first : List String
  only_in_second : List String
  type_mismatches : List String
  order_mismatches : List String
deriving DecidableEq

/-- The `has_differences` property: Python `bool(a or b or c or d)` on the four
lists, i.e. true iff any list is non-empty. -/
def SchemaComparisonResult.has_differences (r : SchemaComparisonResult) : Bool :=
  !r.only_in_first.isEmpty || !r.only_in_second.isEmpty ||
  !r.type_mismatches.isEmpty || !r.order_mismatches.isEmpty

/-- The `total_differences` property. -/
def SchemaComparisonResult.total_differences (r : SchemaComparisonResult) : Nat :=
  r.only_in_first.length + r.only_in_second.length +
  r.type_mismatches.length + r.order_mismatches.length

/-- `{c['column_name']: c['spark_type'] for c in json['schema']}` — the pair
list underlying `schema1_types` / `schema2_types` in `compare_schemas`. -/
def schemaTypes (entries : List ColumnEntry) : List (String × String) :=
  entries.map (fun c => (c.column_name, c.spark_type))

/-- `[c['column_name'] for c in json['schema']]` — `names1` / `names2`. -/
def schemaNames (entries : List ColumnEntry) : List String :=
  entries.map (fun c => c.column_name)

/-- `only_in_first = [n for n in names1 if n not in schema2_types]`. -/
def onlyInFirst (s1 s2 : List ColumnEntry) : List String :=
  (schemaNames s1).filter (fun n => (dictLookup (schemaTypes s2) n).isNone)

/-- `only_in_second = [n for n in names2 if n not in schema1_types]`. -/
def onlyInSecond (s1 s2 : List ColumnEntry) : List String :=
  (schemaNames s2).filter (fun n => (dictLookup (schemaTypes s1) n).isNone)

/-- `type_mismatches` from `compare_schemas` (lines 112–116): for `n` in
`names1` with `n in schema2_types` and differing types, the formatted entry.
The inner `none` branch is unreachable (`n` is always a key of
`schema1_types`). -/
def typeMismatches (s1 s2 : List ColumnEntry) : List String :=
  (schemaNames s1).filterMap (fun n =>
    match dictLookup (schemaTypes s2) n with
    | none => none
    | some t2 =>
      match dictLookup (schemaTypes s1) n with
      | none => none
      | some t1 =>
        if t1 ≠ t2 then some (n ++ ": " ++ t1 ++ " vs " ++ t2) else none)

/-- `common = [n for n in names1 if n in schema2_types]`. -/
def commonNames (s1 s2 : List ColumnEntry) : List String :=
  (schemaNames s1).filter (fun n => (dictLookup (schemaTypes s2) n).isSome)

/-- `pos2 = {n: idx for idx, n in enumerate(names2) if n in schema1_types}` —
note the stored `idx` is the index in the full `names2`, not in its
common-name subsequence. -/
def pos2Dict (s1 s2 : List ColumnEntry) : List (String × Nat) :=
  ((enumerate (schemaNames s2)).filter
      (fun p => (dictLookup (schemaTypes s1) p.2).isSome)).map
    (fun p => (p.2, p.1))

/-- The `order_mismatches` loop of `compare_schemas` (lines 124–131). -/
def orderMismatches (s1 s2 : List ColumnEntry) : List String :=
  (enumerate (commonNames s1 s2)).filterMap (fun p =>
    match p with
    | (idx1, name) =>
      match dictLookup (pos2Dict s1 s2) name with
      | some idx2 =>
        if idx1 ≠ idx2 then
          some (name ++ ": position " ++ toString (idx1 + 1)
                ++ " in file 1 vs position " ++ toString (idx2 + 1)
                ++ " in file 2")
        else none
      | none => none)

/-- Body of `compare_schemas` (lines 90–135) applied to the two `schema`
arrays (after the `json['schema']` key accesses, modelled in
`compare_schemas` below). -/
def compare_schemas_lists (s1 s2 : List ColumnEntry) : SchemaComparisonResult :=
  { only_in_first := onlyInFirst s1 s2
    only_in_second := onlyInSecond s1 s2
    type_mismatches := typeMismatches s1 s2
    order_mismatches := orderMismatches s1 s2 }

/-- A parsed serialized-schema JSON object; each field is `none` when the
corresponding key is absent from the object. -/
structure SerializedSchema where
  schema : Option (List ColumnEntry)
  total_columns : Option Nat
  created_at : Option String
  data_file : Option String
deriving DecidableEq

/-- Python `d[k]`: the value when the key is present, a `KeyError` otherwise
(Python exceptions are modelled by `Except.error`). -/
def getKey {α : Type} (v : Option α) (k : String) : Except String α :=
  match v with
  | some x => Except.ok x
  | none => Except.error ("KeyError: " ++ k)

/-- `compare_schemas` from `schema.py`: the `json1['schema']` and
`json2['schema']` accesses may raise `KeyError`; on well-formed input the
comparison itself is total. -/
def compare_schemas (json1 json2 : SerializedSchema) :
    Except String SchemaComparisonResult := do
  let s1 ← getKey json1.schema "schema"
  let s2 ← getKey json2.schema "schema"
  return compare_schemas_lists s1 s2

/-- What `_compare_json_schemas` (main_window.py lines 786–832) displays after
both JSON files parsed: the "identical" information box or the
"Schema Differences" box. -/
inductive CompareDisplay where
  | identical (total_columns1 : Nat)
  | differing (total_columns1 total_columns2 : Nat)
      (result : SchemaComparisonResult)
deriving DecidableEq

/-- The `try` body of `_compare_json_schemas` after loading both JSON objects:
runs `compare_schemas`, then builds the result display. The "identical"
branch reads only `json1['total_columns']`; the "differs" branch reads
`json1['total_columns']` then `json2['total_columns']`. Any raised `KeyError`
is caught by the surrounding `except` and shown as a "Comparison failed"
error dialog (`Except.error` here). -/
def compareJsonFlow (json1 json2 : SerializedSchema) :
    Except String CompareDisplay := do
  let result ← compare_schemas json1 json2
  if !result.has_differences then
    let t1 ← getKey json1.total_columns "total_columns"
    return CompareDisplay.identical t1
  else
    let t1 ← getKey json1.total_columns "total_columns"
    let t2 ← getKey json2.total_columns "total_columns"
    return CompareDisplay.differing t1 t2 result

/-- Modelled from the spec, §4.6 rule 4, for contrast with the source's
`orderMismatches`: the names recorded as order mismatches when positions are
counted only over the subsequence of names common to both schemas, on BOTH
sides. -/
def orderMismatchNamesSpec (s1 s2 : List ColumnEntry) : List String :=
  let names1 := schemaNames s1
  let names2 := schemaNames s2
  let common1 := names1.filter (fun n => names2.contains n)
  let common2 := names2.filter (fun n => names1.contains n)
  (enumerate common1).filterMap (fun p =>
    match p with
    | (i, n) =>
      match dictLookup ((enumerate common2).map (fun q => (q.2, q.1))) n with
      | some j => if i ≠ j then some n else none
      | none => none)

/-! ### `pandas_model.py` — `PaginationProxyModel`

The proxy's own mutable state is `_page` and `_page_size`; the row count of
its source model (the search-filtered total) is external input, passed here
as the `total` argument (`total_source_rows`). -/

structure PaginationProxyModel where
  page : Nat
  page_size : Nat
deriving DecidableEq

/-- `page_count` (lines 101–106): `0` for an empty total, else
`(total + page_size - 1) // page_size`. -/
def page_count (m : PaginationProxyModel) (total : Nat) : Nat :=
  if total = 0 then 0 else (total + m.page_size - 1) / m.page_size

/-- `showing_from` (lines 108–113): 1-based index of the first visible row. -/
def showing_from (m : PaginationProxyModel) (total : Nat) : Nat :=
  if total = 0 then 0 else m.page * m.page_size + 1

/-- `showing_to` (lines 115–119): 1-based index of the last visible row. -/
def showing_to (m : PaginationProxyModel) (total : Nat) : Nat :=
  min ((m.page + 1) * m.page_size) total

/-- `set_page_size` (lines 123–126). -/
def set_page_size (_m : PaginationProxyModel) (size : Int) :
    PaginationProxyModel :=
  { page_size := (max 1 size).toNat, page := 0 }

/-- `go_to_page` (lines 128–131): clamp into `[0, max(0, page_count-1)]`.
The argument is an `Int` as in Python; the clamped result is a `Nat`. -/
def go_to_page (m : PaginationProxyModel) (total : Nat) (p : Int) :
    PaginationProxyModel :=
  let max_page : Int := max 0 ((page_count m total : Int) - 1)
  { m with page := (max 0 (min p max_page)).toNat }

/-- `first_page` (lines 133–134). -/
def first_page (m : PaginationProxyModel) (total : Nat) :
    PaginationProxyModel :=
  go_to_page m total 0

/-- `next_page` (lines 136–141); the comparison `_page < page_count - 1` is
Python integer arithmetic, hence taken in `Int`. -/
def next_page (m : PaginationProxyModel) (total : Nat) :
    Bool × PaginationProxyModel :=
  if (m.page : Int) < (page_count m total : Int) - 1 then
    (true, { m with page := m.page + 1 })
  else (false, m)

/-- `previous_page` (lines 143–148); like the source, it consults only
`_page`, not the total. -/
def previous_page (m : PaginationProxyModel) (_total : Nat) :
    Bool × PaginationProxyModel :=
  if m.page > 0 then (true, { m with page := m.page - 1 }) else (false, m)

/-! ### `workers.py` and the `main_window.py` load handlers -/

/-- The in-memory table: a pandas `DataFrame` reduced to what the handlers
inspect (column names, row cells as display strings). -/
structure DataFrame where
  columns : List String
  rows : List (List String)
deriving DecidableEq

/-- pandas `df.empty`: true iff either axis has length 0. -/
def DataFrame.empty (df : DataFrame) : Bool :=
  df.rows.isEmpty || df.columns.isEmpty

/-- The two signals a `DataLoaderWorker` can emit, exactly once per run. -/
inductive LoadSignal where
  | finished (df : DataFrame)
  | error (msg : String)
deriving DecidableEq

/-- `DataLoaderWorker.run` (workers.py lines 29–51). `read_result` stands for
the outcome of the pandas read call for the chosen branch (`Except.ok` a
DataFrame, or `Except.error` the stringified raised exception, caught by the
`try`). An unsupported `file_type` emits `error` without reading. -/
def DataLoaderWorker.run (file_type : String)
    (read_result : Except String DataFrame) : LoadSignal :=
  if file_type == "parquet" then
    match read_result with
    | Except.ok df => LoadSignal.finished df
    | Except.error e => LoadSignal.error e
  else if file_type == "csv" || file_type == "csv_gzip" || file_type == "txt"
  then
    match read_result with
    | Except.ok df => LoadSignal.finished df
    | Except.error e => LoadSignal.error e
  else
    LoadSignal.error ("Unsupported file type: " ++ file_type)

/-- The slice of `MainWindow` state read or written by `_on_data_loaded` and
`_on_load_error`. -/
structure MainWindow where
  model_df : DataFrame
  search_text : String
  page_proxy : PaginationProxyModel
  has_header : Bool
  status_message : String
  window_title : String
  progress_value : Nat
  file_name : String
  file_ext : String
deriving DecidableEq

/-- `[f'col{i}' for i in range(1, len(df.columns) + 1)]`. -/
def renamedColumns (n : Nat) : List String :=
  (List.range n).map (fun i => "col" ++ toString (i + 1))

/-- `_on_data_loaded` (main_window.py lines 472–501): optional header
synthesis, model update, search cleared (which re-filters with the empty term
and leaves the filtered total at `len(df)`), `first_page`, status/title
update, `_has_header` reset. The `f"{total:,}"` thousands separator of the
status text is rendered as a plain decimal here. -/
def on_data_loaded (w : MainWindow) (df : DataFrame) : MainWindow :=
  let df :=
    if !w.has_header && !df.empty then
      { df with columns := renamedColumns df.columns.length }
    else df
  { w with
    model_df := df
    search_text := ""
    page_proxy := first_page w.page_proxy df.rows.length
    status_message := "Total records: " ++ toString df.rows.length
    window_title := w.file_name ++ "." ++ w.file_ext
                    ++ " - Parquet Viewer Python"
    has_header := true }

/-- `_on_load_error` (main_window.py lines 503–508): progress bar reset and
status message; the error text goes to a modal dialog, and no other state is
touched. -/
def on_load_error (w : MainWindow) (_msg : String) : MainWindow :=
  { w with progress_value := 0, status_message := "Error loading file" }

end ParquetViewer

namespace ParquetViewer

/-! ### Basic lemmas about the primitive models -/

theorem toNat_ofNat_of_valid {n : Nat} (h : n.isValidChar) :
    (Char.ofNat n).toNat = n := by
  rw [Char.ofNat, dif_pos h]; rfl

theorem char_toLower_not_upper (c : Char) :
    ¬(65 ≤ c.toLower.toNat ∧ c.toLower.toNat ≤ 90) := by
  rw [Char.toLower]
  by_cases h : c.toNat ≥ 65 ∧ c.toNat ≤ 90
  · rw [if_pos h]
    have hv : (c.toNat + 32).isValidChar := Or.inl (by omega)
    rw [toNat_ofNat_of_valid hv]
    omega
  · rw [if_neg h]
    omega

theorem char_toLower_toLower (c : Char) : c.toLower.toLower = c.toLower := by
  conv_lhs => rw [Char.toLower]
  rw [if_neg (char_toLower_not_upper c)]

theorem pyLower_pyLower (s : String) : pyLower (pyLower s) = pyLower s := by
  simp only [pyLower, List.map_map]
  have : Char.toLower ∘ Char.toLower = Char.toLower := by
    funext c; exact char_toLower_toLower c
  rw [this]

theorem dictLookup_isSome_iff {α : Type} (pairs : List (String × α))
    (k : String) :
    (dictLookup pairs k).isSome = true ↔ k ∈ pairs.map Prod.fst := by
  induction pairs with
  | nil => simp [dictLookup]
  | cons p rest ih =>
    obtain ⟨k', v⟩ := p
    simp only [dictLookup, List.map_cons, List.mem_cons]
    cases h : dictLookup rest k with
    | some v' =>
      simp only [h, Option.isSome_some] at ih ⊢
      simp [← ih]
    | none =>
      have hnm : ¬ k ∈ rest.map Prod.fst := by
        rw [← ih, h]
        simp
      by_cases hk : k' = k
      · simp [hk]
      · have hk' : ¬ k = k' := fun he => hk he.symm
        simp [hk, hk', hnm]

theorem dictLookup_eq_some_mem {α : Type} {pairs : List (String × α)}
    {k : String} {v : α} (h : dictLookup pairs k = some v) : (k, v) ∈ pairs := by
  induction pairs with
  | nil => simp [dictLookup] at h
  | cons p rest ih =>
    obtain ⟨k', v'⟩ := p
    simp only [dictLookup] at h
    cases hr : dictLookup rest k with
    | some w =>
      rw [hr] at h
      exact List.mem_cons_of_mem _ (ih (hr.trans h))
    | none =>
      rw [hr] at h
      by_cases hk : k' = k
      · rw [if_pos (by simpa using hk)] at h
        subst hk
        cases h
        exact List.mem_cons_self _ _
      · rw [if_neg (by simpa using hk)] at h
        cases h

end ParquetViewer

namespace ParquetViewer

/-! ### C5, C10 — the type classifier -/

theorem get_spark_type_of_lookup_some {s t : String}
    (h : dictLookup SPARK_TYPE_MAP (pyLower s) = some t) :
    get_spark_type s = t := by
  rw [get_spark_type.eq_def]
  dsimp only []
  rw [h]

theorem get_spark_type_of_lookup_none {s : String}
    (h : dictLookup SPARK_TYPE_MAP (pyLower s) = none) :
    get_spark_type s =
      if (pyStartswith (pyLower s) "int" || pyStartswith (pyLower s) "uint")
          = true then "integer"
      else if pyStartswith (pyLower s) "float" = true then "double"
      else if pyStartswith (pyLower s) "datetime" = true then "timestamp"
      else "string" := by
  rw [get_spark_type.eq_def]
  dsimp only []
  rw [h]

/-- C5: `get_spark_type` is a total pure function into
{integer, double, string, boolean, timestamp}; the exact-match table applies
first, then the `int`/`uint`, `float`, `datetime` prefix rules in that order,
and any unmatched input yields `"string"`. -/
theorem C5_type_classifier_total (s : String) :
    (get_spark_type s = "integer" ∨ get_spark_type s = "double" ∨
     get_spark_type s = "string" ∨ get_spark_type s = "boolean" ∨
     get_spark_type s = "timestamp") ∧
    (∀ t, dictLookup SPARK_TYPE_MAP (pyLower s) = some t →
      get_spark_type s = t) ∧
    (dictLookup SPARK_TYPE_MAP (pyLower s) = none →
      ((pyStartswith (pyLower s) "int" || pyStartswith (pyLower s) "uint")
          = true → get_spark_type s = "integer") ∧
      ((pyStartswith (pyLower s) "int" || pyStartswith (pyLower s) "uint")
          = false → pyStartswith (pyLower s) "float" = true →
        get_spark_type s = "double") ∧
      ((pyStartswith (pyLower s) "int" || pyStartswith (pyLower s) "uint")
          = false → pyStartswith (pyLower s) "float" = false →
        pyStartswith (pyLower s) "datetime" = true →
        get_spark_type s = "timestamp") ∧
      ((pyStartswith (pyLower s) "int" || pyStartswith (pyLower s) "uint")
          = false → pyStartswith (pyLower s) "float" = false →
        pyStartswith (pyLower s) "datetime" = false →
        get_spark_type s = "string")) := by
  refine ⟨?_, ?_, ?_⟩
  · cases h : dictLookup SPARK_TYPE_MAP (pyLower s) with
    | some t =>
      rw [get_spark_type_of_lookup_some h]
      have hm : (pyLower s, t) ∈ SPARK_TYPE_MAP := dictLookup_eq_some_mem h
      have hsnd : t ∈ SPARK_TYPE_MAP.map Prod.snd :=
        List.mem_map_of_mem Prod.snd hm
      have hall : ∀ x ∈ SPARK_TYPE_MAP.map Prod.snd,
          x = "integer" ∨ x = "double" ∨ x = "string" ∨ x = "boolean" ∨
          x = "timestamp" := by decide
      exact hall t hsnd
    | none =>
      rw [get_spark_type_of_lookup_none h]
      split_ifs <;> simp
  · intro t h
    exact get_spark_type_of_lookup_some h
  · intro h
    rw [get_spark_type_of_lookup_none h]
    refine ⟨?_, ?_, ?_, ?_⟩ <;> intros <;> simp [*]

/-- Witness for C5 at concrete inputs: a prefix-rule hit, and the fallback. -/
theorem C5_witness :
    get_spark_type "UINT128" = "integer" ∧
    get_spark_type "whatever" = "string" := by
  have h1 := C5_type_classifier_total "UINT128"
  have h2 := C5_type_classifier_total "whatever"
  exact ⟨(h1.2.2 (by decide)).1 (by decide),
         (h2.2.2 (by decide)).2.2.2 (by decide) (by decide) (by decide)⟩

/-- C10: the classifier is case-insensitive — classifying `s` agrees with
classifying the lowercased form of `s`. -/
theorem C10_classifier_case_insensitive (s : String) :
    get_spark_type s = get_spark_type (pyLower s) := by
  unfold get_spark_type
  rw [pyLower_pyLower]

/-! ### C1 — order-mismatch positions -/

/-- C1 (evidence for the code bug): with first schema `[x]` and second schema
`[u, x]` (`u` unique to the second file), the code flags `x` as moved —
position 0 in the first file's common subsequence versus `x`'s absolute
index 1 in the second file — even though `x`'s 0-based position within each
side's common-name subsequence is 0 on both sides, so the spec's
restricted-position rule (and the code's own comment) record no mismatch. -/
theorem C1_absolute_position_flags_unmoved_column :
    (compare_schemas_lists [⟨"x", "int64", "integer"⟩]
        [⟨"u", "int64", "integer"⟩, ⟨"x", "int64", "integer"⟩]).order_mismatches
      = ["x: position 1 in file 1 vs position 2 in file 2"] ∧
    orderMismatchNamesSpec [⟨"x", "int64", "integer"⟩]
        [⟨"u", "int64", "integer"⟩, ⟨"x", "int64", "integer"⟩] = [] := by
  exact ⟨by decide, by decide⟩

end ParquetViewer

namespace ParquetViewer

/-! ### C6, C7 — pagination arithmetic and navigation -/

theorem page_count_eq_ceil (m : PaginationProxyModel) (total : Nat)
    (hps : 1 ≤ m.page_size) :
    (page_count m total : ℤ) = ⌈(total : ℚ) / (m.page_size : ℚ)⌉ := by
  rcases Nat.eq_zero_or_pos total with h0 | hpos
  · subst h0
    simp [page_count]
  · have hps0 : (0 : ℚ) < (m.page_size : ℚ) := by exact_mod_cast hps
    have hd := Nat.div_add_mod (total + m.page_size - 1) m.page_size
    have hr : (total + m.page_size - 1) % m.page_size < m.page_size :=
      Nat.mod_lt _ (by omega)
    set n := (total + m.page_size - 1) / m.page_size with hn
    have h1 : total ≤ m.page_size * n := by omega
    have h2 : m.page_size * n < total + m.page_size := by omega
    have hpc : page_count m total = n := by rw [page_count, if_neg (by omega)]
    rw [hpc, eq_comm, Int.ceil_eq_iff]
    have h1q : (total : ℚ) ≤ (m.page_size : ℚ) * (n : ℚ) := by exact_mod_cast h1
    have h2q : (m.page_size : ℚ) * (n : ℚ) < (total : ℚ) + (m.page_size : ℚ) := by
      exact_mod_cast h2
    constructor
    · rw [lt_div_iff₀ hps0]
      push_cast
      nlinarith [h2q]
    · rw [div_le_iff₀ hps0]
      push_cast
      nlinarith [h1q]

end ParquetViewer

namespace ParquetViewer

/-- C6: with `page_size ≥ 1`, `page_count` is the ceiling of
`total / page_size` (hence `0` when the total is `0`), and the visible range
`(showing_from, showing_to)` is `(0, 0)` on an empty total and
`(page*page_size + 1, min((page+1)*page_size, total))` on a valid page. -/
theorem C6_page_count_and_visible_range (m : PaginationProxyModel)
    (total : Nat) (hps : 1 ≤ m.page_size) :
    ((page_count m total : ℤ) = ⌈(total : ℚ) / (m.page_size : ℚ)⌉) ∧
    (total = 0 → page_count m total = 0) ∧
    (total = 0 → showing_from m total = 0 ∧ showing_to m total = 0) ∧
    (m.page < page_count m total →
      showing_from m total = m.page * m.page_size + 1 ∧
      showing_to m total = min ((m.page + 1) * m.page_size) total) := by
  refine ⟨page_count_eq_ceil m total hps, ?_, ?_, ?_⟩
  · intro h0
    simp [page_count, h0]
  · intro h0
    simp [showing_from, showing_to, h0]
  · intro hvalid
    have h0 : total ≠ 0 := by
      intro h
      rw [page_count, if_pos h] at hvalid
      omega
    exact ⟨by rw [showing_from, if_neg h0], rfl⟩

/-- Witness for C6 at the spec's example: total 9, page size 3, page 2 gives
page count 3 and visible range `(7, 9)`. -/
theorem C6_witness :
    page_count ⟨2, 3⟩ 9 = 3 ∧ showing_from ⟨2, 3⟩ 9 = 7 ∧
    showing_to ⟨2, 3⟩ 9 = 9 ∧
    ((page_count ⟨2, 3⟩ 9 : ℤ) = ⌈((9 : Nat) : ℚ) / (((3 : Nat) : ℚ))⌉) := by
  have h := C6_page_count_and_visible_range ⟨2, 3⟩ 9 (by decide)
  exact ⟨by decide, by decide, by decide, h.1⟩

/-- C7: `go_to_page` clamps into `[0, page_count-1]` (to `0` when the page
count is `0`); a successful `next_page`/`previous_page` moves by exactly one
page, both are refused no-ops at the last/first page, and both return `false`
on an empty total (under the data-model invariant that the current page is
`0` when the total is `0`). -/
theorem C7_navigation_clamps_and_steps (m : PaginationProxyModel)
    (total : Nat) (p : Int) (hinv : total = 0 → m.page = 0) :
    (page_count m total = 0 → (go_to_page m total p).page = 0) ∧
    (page_count m total ≠ 0 →
      (go_to_page m total p).page < page_count m total) ∧
    ((next_page m total).1 = true →
      (next_page m total).2.page = m.page + 1) ∧
    (page_count m total ≤ m.page + 1 → next_page m total = (false, m)) ∧
    ((next_page m total).1 = false → (next_page m total).2 = m) ∧
    ((previous_page m total).1 = true →
      (previous_page m total).2.page = m.page - 1 ∧ 0 < m.page) ∧
    (m.page = 0 → previous_page m total = (false, m)) ∧
    (total = 0 →
      (next_page m total).1 = false ∧ (previous_page m total).1 = false) := by
  refine ⟨?_, ?_, ?_, ?_, ?_, ?_, ?_, ?_⟩
  · intro h0
    simp only [go_to_page, h0]
    omega
  · intro hne
    simp only [go_to_page]
    omega
  · intro h
    rw [next_page] at h ⊢
    by_cases hc : (m.page : Int) < (page_count m total : Int) - 1
    · simp [if_pos hc]
    · rw [if_neg hc] at h
      simp at h
  · intro h
    rw [next_page, if_neg (by omega)]
  · intro h
    rw [next_page] at h ⊢
    by_cases hc : (m.page : Int) < (page_count m total : Int) - 1
    · rw [if_pos hc] at h
      simp at h
    · rw [if_neg hc]
  · intro h
    rw [previous_page] at h ⊢
    by_cases hc : m.page > 0
    · rw [if_pos hc]
      exact ⟨rfl, hc⟩
    · rw [if_neg hc] at h
      simp at h
  · intro h0
    rw [previous_page, if_neg (by omega)]
  · intro h0
    have hpc : page_count m total = 0 := by rw [page_count, if_pos h0]
    constructor
    · rw [next_page, if_neg (by rw [hpc]; omega)]
    · rw [previous_page, if_neg (by rw [hinv h0]; omega)]

/-- Witness for C7: empty total, stale request for page 5. -/
theorem C7_witness :
    ((0 : Nat) = 0 → (⟨0, 50⟩ : PaginationProxyModel).page = 0) ∧
    ((go_to_page ⟨0, 50⟩ 0 5).page = 0 ∧
      next_page ⟨0, 50⟩ 0 = (false, ⟨0, 50⟩) ∧
      previous_page ⟨0, 50⟩ 0 = (false, ⟨0, 50⟩)) := by
  have h := C7_navigation_clamps_and_steps ⟨0, 50⟩ 0 5 (fun _ => rfl)
  exact ⟨fun _ => rfl,
    h.1 (by decide), h.2.2.2.1 (by decide), h.2.2.2.2.2.2.1 rfl⟩

end ParquetViewer

namespace ParquetViewer

/-! ### C2, C4 — load outcome handling -/

/-- C2 as claimed is false: a parse producing zero rows is emitted via the
`finished` (success) signal, not an error, and the data-loaded handler then
clears the search term and resets the page to 0, overwriting the displayed
state (here: previous search `"term"`, previous page 3). -/
theorem C2_counterexample :
    DataLoaderWorker.run "parquet" (Except.ok ⟨["a"], []⟩)
      = LoadSignal.finished ⟨["a"], []⟩ ∧
    (⟨["a"], []⟩ : DataFrame).rows = [] ∧
    (on_data_loaded (⟨⟨["b"], [["1"]]⟩, "term", ⟨3, 50⟩, true, "s", "t", 0,
        "f", "parquet"⟩ : MainWindow) ⟨["a"], []⟩).search_text = "" ∧
    (on_data_loaded (⟨⟨["b"], [["1"]]⟩, "term", ⟨3, 50⟩, true, "s", "t", 0,
        "f", "parquet"⟩ : MainWindow) ⟨["a"], []⟩).page_proxy.page = 0 ∧
    (⟨⟨["b"], [["1"]]⟩, "term", ⟨3, 50⟩, true, "s", "t", 0, "f",
        "parquet"⟩ : MainWindow).search_text ≠ "" ∧
    (⟨⟨["b"], [["1"]]⟩, "term", ⟨3, 50⟩, true, "s", "t", 0, "f",
        "parquet"⟩ : MainWindow).page_proxy.page ≠ 0 := by
  refine ⟨by decide, by decide, by decide, by decide, by decide, by decide⟩

/-- C2 amended: for every supported file type, a load whose parse succeeds is
emitted as `finished` even when the parsed result is empty (there is no
`Empty` error), and the data-loaded handler resets the search term to `""`
and the current page to 0 on every delivered load, empty or not. -/
theorem C2_amended_empty_load_is_success (w : MainWindow) (df : DataFrame)
    (ft : String)
    (hft : ft = "parquet" ∨ ft = "csv" ∨ ft = "csv_gzip" ∨ ft = "txt") :
    DataLoaderWorker.run ft (Except.ok df) = LoadSignal.finished df ∧
    (on_data_loaded w df).search_text = "" ∧
    (on_data_loaded w df).page_proxy.page = 0 := by
  refine ⟨?_, rfl, ?_⟩
  · rcases hft with h | h | h | h <;> subst h <;> rfl
  · simp only [on_data_loaded, first_page, go_to_page]
    omega

/-- Witness for C2's amended statement at a concrete empty load. -/
theorem C2_amended_witness :
    DataLoaderWorker.run "csv" (Except.ok ⟨[], []⟩)
      = LoadSignal.finished ⟨[], []⟩ ∧
    (on_data_loaded (⟨⟨["b"], [["1"]]⟩, "term", ⟨3, 50⟩, true, "s", "t", 0,
        "f", "csv"⟩ : MainWindow) ⟨[], []⟩).search_text = "" ∧
    (on_data_loaded (⟨⟨["b"], [["1"]]⟩, "term", ⟨3, 50⟩, true, "s", "t", 0,
        "f", "csv"⟩ : MainWindow) ⟨[], []⟩).page_proxy.page = 0 :=
  C2_amended_empty_load_is_success _ _ "csv" (Or.inr (Or.inl rfl))

/-- C4: when a load run signals `error` (missing/unreadable file, unsupported
format, corrupt content — any raised read exception or unsupported type), the
error handler leaves the displayed snapshot, the search term and the current
page exactly as they were. -/
theorem C4_load_error_preserves_state (w : MainWindow) (ft : String)
    (res : Except String DataFrame) (msg : String)
    (_h : DataLoaderWorker.run ft res = LoadSignal.error msg) :
    (on_load_error w msg).model_df = w.model_df ∧
    (on_load_error w msg).search_text = w.search_text ∧
    (on_load_error w msg).page_proxy = w.page_proxy :=
  ⟨rfl, rfl, rfl⟩

/-- Witness for C4: an unsupported file type fails and preserves state. -/
theorem C4_witness :
    (on_load_error (⟨⟨["a"], [["1"]]⟩, "term", ⟨2, 50⟩, true, "s", "t", 5,
        "f", "csv"⟩ : MainWindow) "Unsupported file type: xlsx").model_df
      = (⟨⟨["a"], [["1"]]⟩, "term", ⟨2, 50⟩, true, "s", "t", 5,
        "f", "csv"⟩ : MainWindow).model_df ∧
    (on_load_error (⟨⟨["a"], [["1"]]⟩, "term", ⟨2, 50⟩, true, "s", "t", 5,
        "f", "csv"⟩ : MainWindow) "Unsupported file type: xlsx").search_text
      = (⟨⟨["a"], [["1"]]⟩, "term", ⟨2, 50⟩, true, "s", "t", 5,
        "f", "csv"⟩ : MainWindow).search_text ∧
    (on_load_error (⟨⟨["a"], [["1"]]⟩, "term", ⟨2, 50⟩, true, "s", "t", 5,
        "f", "csv"⟩ : MainWindow) "Unsupported file type: xlsx").page_proxy
      = (⟨⟨["a"], [["1"]]⟩, "term", ⟨2, 50⟩, true, "s", "t", 5,
        "f", "csv"⟩ : MainWindow).page_proxy :=
  C4_load_error_preserves_state _ "xlsx" (Except.ok ⟨[], []⟩)
    "Unsupported file type: xlsx" (by decide)

/-! ### C9 — malformed serialized schemas -/

/-- C9 as claimed is false: when only the second input lacks
`total_columns` and the two `schema` arrays are identical, the comparison
flow shows the normal "identical" result (reading `total_columns` from the
first input only) instead of reporting an error. -/
theorem C9_counterexample :
    compareJsonFlow
        ⟨some [⟨"id", "int64", "integer"⟩], some 1, none, none⟩
        ⟨some [⟨"id", "int64", "integer"⟩], none, none, none⟩
      = Except.ok (CompareDisplay.identical 1) := rfl

/-- C9 amended: a missing `schema` key in either input, a missing
`total_columns` in the first input, or a missing `total_columns` in the
second input when the comparison finds differences, is reported as a raised
`KeyError` (shown as a comparison-failure dialog), never silently defaulted;
only a missing `total_columns` confined to the second input of a
no-difference comparison goes unnoticed. -/
theorem C9_amended_missing_keys_error (j1 j2 : SerializedSchema)
    (h : j1.schema = none ∨ j2.schema = none ∨ j1.total_columns = none ∨
      (j2.total_columns = none ∧
        ∃ r, compare_schemas j1 j2 = Except.ok r ∧
          r.has_differences = true)) :
    ∃ e, compareJsonFlow j1 j2 = Except.error e := by
  rcases h with h | h | h | ⟨h2, r, hr, hdiff⟩
  · exact ⟨"KeyError: schema", by
      simp [compareJsonFlow, compare_schemas, getKey, h, Bind.bind,
        Except.bind, Functor.map, Except.map]⟩
  · refine ⟨"KeyError: schema", ?_⟩
    cases hs : j1.schema with
    | none =>
      simp [compareJsonFlow, compare_schemas, getKey, hs, Bind.bind,
        Except.bind, Functor.map, Except.map]
    | some s =>
      simp [compareJsonFlow, compare_schemas, getKey, hs, h, Bind.bind,
        Except.bind, Functor.map, Except.map]
  · cases hc : compare_schemas j1 j2 with
    | error e =>
      exact ⟨e, by simp [compareJsonFlow, hc, Bind.bind, Except.bind]⟩
    | ok r =>
      refine ⟨"KeyError: total_columns", ?_⟩
      by_cases hd : r.has_differences = true
      · simp [compareJsonFlow, hc, hd, getKey, h, Bind.bind, Except.bind]
      · simp [compareJsonFlow, hc, hd, getKey, h, Bind.bind, Except.bind]
  · refine ⟨"KeyError: total_columns", ?_⟩
    cases ht1 : j1.total_columns with
    | none =>
      simp [compareJsonFlow, hr, hdiff, getKey, ht1, Bind.bind, Except.bind]
    | some t1 =>
      simp [compareJsonFlow, hr, hdiff, getKey, ht1, h2, Bind.bind,
        Except.bind]

/-- Witness for C9's amended statement: first input lacking `schema`. -/
theorem C9_amended_witness :
    ∃ e, compareJsonFlow ⟨none, some 1, none, none⟩
        ⟨some [⟨"id", "int64", "integer"⟩], some 1, none, none⟩
      = Except.error e :=
  C9_amended_missing_keys_error _ _ (Or.inl rfl)

end ParquetViewer

namespace ParquetViewer

/-! ### Infrastructure for the comparison lemmas (C3, C8) -/

theorem schemaTypes_keys (s : List ColumnEntry) :
    (schemaTypes s).map Prod.fst = schemaNames s := by
  simp [schemaTypes, schemaNames, List.map_map, Function.comp]

theorem lookup_isSome_iff_mem (s : List ColumnEntry) (n : String) :
    (dictLookup (schemaTypes s) n).isSome = true ↔ n ∈ schemaNames s := by
  rw [dictLookup_isSome_iff, schemaTypes_keys]

theorem mem_enumerateFrom_iff {α : Type} {l : List α} {k i : Nat} {x : α} :
    (i, x) ∈ enumerateFrom k l ↔ k ≤ i ∧ l[i - k]? = some x := by
  induction l generalizing k with
  | nil => simp [enumerateFrom]
  | cons a as ih =>
    simp only [enumerateFrom, List.mem_cons, ih]
    constructor
    · rintro (heq | ⟨hk, hget⟩)
      · obtain ⟨rfl, rfl⟩ := Prod.mk.injEq .. |>.mp heq
        simp
      · refine ⟨by omega, ?_⟩
        have hik : i - k = (i - (k + 1)) + 1 := by omega
        rw [hik, List.getElem?_cons_succ]
        exact hget
    · rintro ⟨hk, hget⟩
      rcases Nat.eq_or_lt_of_le hk with heq | hlt
      · left
        subst heq
        simp only [Nat.sub_self, List.getElem?_cons_zero, Option.some.injEq]
          at hget
        rw [hget]
      · right
        refine ⟨by omega, ?_⟩
        have hik : i - k = (i - (k + 1)) + 1 := by omega
        rw [hik, List.getElem?_cons_succ] at hget
        exact hget

theorem mem_enumerate_iff {α : Type} {l : List α} {i : Nat} {x : α} :
    (i, x) ∈ enumerate l ↔ l[i]? = some x := by
  rw [enumerate, mem_enumerateFrom_iff]
  simp

theorem snd_mem_of_mem_enumerate {α : Type} {l : List α} {p : Nat × α}
    (h : p ∈ enumerate l) : p.2 ∈ l := by
  obtain ⟨i, x⟩ := p
  have := mem_enumerate_iff.mp h
  exact List.getElem?_mem this

theorem map_fst_swap_enumerateFrom {α : Type} (l : List α) (k : Nat) :
    (((enumerateFrom k l).map (fun q => (q.2, q.1))).map Prod.fst) = l := by
  induction l generalizing k with
  | nil => simp [enumerateFrom]
  | cons a as ih => simp [enumerateFrom, ih]

theorem dictLookup_swap_enumerateFrom :
    ∀ (l : List String), l.Nodup → ∀ (k i : Nat) (n : String),
      (i, n) ∈ enumerateFrom k l →
      dictLookup ((enumerateFrom k l).map (fun q => (q.2, q.1))) n = some i := by
  intro l
  induction l with
  | nil =>
    intro _ k i n hmem
    simp [enumerateFrom] at hmem
  | cons a as ih =>
    intro hnd k i n hmem
    obtain ⟨hna, hnd'⟩ := List.nodup_cons.mp hnd
    simp only [enumerateFrom, List.map_cons] at hmem ⊢
    rw [dictLookup]
    rcases List.mem_cons.mp hmem with heq | hmem'
    · injection heq with h1 h2
      have hnone :
          dictLookup ((enumerateFrom (k + 1) as).map (fun q => (q.2, q.1))) n
            = none := by
        rw [← Option.not_isSome_iff_eq_none, dictLookup_isSome_iff,
            map_fst_swap_enumerateFrom, h2]
        simpa using hna
      rw [hnone]
      simp [h2, h1]
    · rw [ih hnd' (k + 1) i n hmem']

theorem dictLookup_swap_enumerate_iff {l : List String} (hnd : l.Nodup)
    {i : Nat} {n : String} :
    dictLookup ((enumerate l).map (fun q => (q.2, q.1))) n = some i ↔
      l[i]? = some n := by
  constructor
  · intro h
    have hmem := dictLookup_eq_some_mem h
    obtain ⟨q, hq, hqe⟩ := List.mem_map.mp hmem
    obtain ⟨j, m⟩ := q
    obtain ⟨rfl, rfl⟩ := Prod.mk.injEq .. |>.mp hqe
    exact mem_enumerate_iff.mp hq
  · intro h
    exact dictLookup_swap_enumerateFrom l hnd 0 i n (mem_enumerate_iff.mpr h)

end ParquetViewer

namespace ParquetViewer

theorem commonNames_self (s : List ColumnEntry) :
    commonNames s s = schemaNames s := by
  rw [commonNames, List.filter_eq_self]
  intro n hn
  exact (lookup_isSome_iff_mem s n).mpr hn

theorem pos2Dict_self (s : List ColumnEntry) :
    pos2Dict s s = (enumerate (schemaNames s)).map (fun q => (q.2, q.1)) := by
  rw [pos2Dict]
  congr 1
  rw [List.filter_eq_self]
  intro p hp
  exact (lookup_isSome_iff_mem s p.2).mpr (snd_mem_of_mem_enumerate hp)

/-- C8: comparing a serialized schema with itself (column names are unique,
per the data model) reports no differences and four empty lists. -/
theorem C8_compare_self_no_differences (s : List ColumnEntry)
    (h : (schemaNames s).Nodup) :
    (compare_schemas_lists s s).has_differences = false ∧
    (compare_schemas_lists s s).only_in_first = [] ∧
    (compare_schemas_lists s s).only_in_second = [] ∧
    (compare_schemas_lists s s).type_mismatches = [] ∧
    (compare_schemas_lists s s).order_mismatches = [] := by
  have hoif : onlyInFirst s s = [] := by
    rw [onlyInFirst, List.filter_eq_nil_iff]
    intro n hn
    have hs := (lookup_isSome_iff_mem s n).mpr hn
    obtain ⟨t, ht⟩ := Option.isSome_iff_exists.mp hs
    simp [ht]
  have hois : onlyInSecond s s = [] := hoif
  have htm : typeMismatches s s = [] := by
    rw [typeMismatches, List.filterMap_eq_nil_iff]
    intro n _hn
    cases hdl : dictLookup (schemaTypes s) n with
    | none => simp
    | some t => simp
  have hom : orderMismatches s s = [] := by
    rw [orderMismatches, commonNames_self, pos2Dict_self,
      List.filterMap_eq_nil_iff]
    intro p hp
    obtain ⟨i, n⟩ := p
    have hget := mem_enumerate_iff.mp hp
    have hlk := (dictLookup_swap_enumerate_iff h).mpr hget
    simp [hlk]
  refine ⟨?_, hoif, hois, htm, hom⟩
  simp [compare_schemas_lists, SchemaComparisonResult.has_differences,
    hoif, hois, htm, hom]

/-- Witness for C8 at a concrete two-column schema. -/
theorem C8_witness :
    (compare_schemas_lists [⟨"id", "int64", "integer"⟩,
        ⟨"name", "object", "string"⟩] [⟨"id", "int64", "integer"⟩,
        ⟨"name", "object", "string"⟩]).has_differences = false ∧
    (compare_schemas_lists [⟨"id", "int64", "integer"⟩,
        ⟨"name", "object", "string"⟩] [⟨"id", "int64", "integer"⟩,
        ⟨"name", "object", "string"⟩]).only_in_first = [] ∧
    (compare_schemas_lists [⟨"id", "int64", "integer"⟩,
        ⟨"name", "object", "string"⟩] [⟨"id", "int64", "integer"⟩,
        ⟨"name", "object", "string"⟩]).only_in_second = [] ∧
    (compare_schemas_lists [⟨"id", "int64", "integer"⟩,
        ⟨"name", "object", "string"⟩] [⟨"id", "int64", "integer"⟩,
        ⟨"name", "object", "string"⟩]).type_mismatches = [] ∧
    (compare_schemas_lists [⟨"id", "int64", "integer"⟩,
        ⟨"name", "object", "string"⟩] [⟨"id", "int64", "integer"⟩,
        ⟨"name", "object", "string"⟩]).order_mismatches = [] :=
  C8_compare_self_no_differences
    [⟨"id", "int64", "integer"⟩, ⟨"name", "object", "string"⟩] (by decide)

end ParquetViewer

namespace ParquetViewer

theorem onlyInFirst_eq_nil_iff (s1 s2 : List ColumnEntry) :
    onlyInFirst s1 s2 = [] ↔ ∀ n ∈ schemaNames s1, n ∈ schemaNames s2 := by
  rw [onlyInFirst, List.filter_eq_nil_iff]
  constructor
  · intro h n hn
    have hni := h n hn
    cases hv : dictLookup (schemaTypes s2) n with
    | none => simp [hv] at hni
    | some t =>
      rw [← lookup_isSome_iff_mem s2 n, hv]
      rfl
  · intro h n hn
    have hs := (lookup_isSome_iff_mem s2 n).mpr (h n hn)
    obtain ⟨t, ht⟩ := Option.isSome_iff_exists.mp hs
    simp [ht]

theorem typeMismatches_eq_nil_iff (s1 s2 : List ColumnEntry)
    (hsub1 : ∀ n ∈ schemaNames s1, n ∈ schemaNames s2) :
    typeMismatches s1 s2 = [] ↔
      ∀ n t1 t2, dictLookup (schemaTypes s1) n = some t1 →
        dictLookup (schemaTypes s2) n = some t2 → t1 = t2 := by
  rw [typeMismatches, List.filterMap_eq_nil_iff]
  constructor
  · intro hf n t1 t2 ht1 ht2
    have hn : n ∈ schemaNames s1 := by
      rw [← lookup_isSome_iff_mem s1 n, ht1]
      rfl
    have hfn := hf n hn
    simp only [ht1, ht2] at hfn
    by_contra hne
    rw [if_pos hne] at hfn
    cases hfn
  · intro hall n hn
    have hs1 := (lookup_isSome_iff_mem s1 n).mpr hn
    have hs2 := (lookup_isSome_iff_mem s2 n).mpr (hsub1 n hn)
    obtain ⟨t1, ht1⟩ := Option.isSome_iff_exists.mp hs1
    obtain ⟨t2, ht2⟩ := Option.isSome_iff_exists.mp hs2
    have heq := hall n t1 t2 ht1 ht2
    simp [ht1, ht2, heq]

theorem orderMismatches_eq_nil_iff (s1 s2 : List ColumnEntry)
    (h2 : (schemaNames s2).Nodup)
    (hsub1 : ∀ n ∈ schemaNames s1, n ∈ schemaNames s2)
    (hsub2 : ∀ n ∈ schemaNames s2, n ∈ schemaNames s1) :
    orderMismatches s1 s2 = [] ↔ schemaNames s1 = schemaNames s2 := by
  have hcommon : commonNames s1 s2 = schemaNames s1 := by
    rw [commonNames, List.filter_eq_self]
    intro n hn
    exact (lookup_isSome_iff_mem s2 n).mpr (hsub1 n hn)
  have hpos2 : pos2Dict s1 s2
      = (enumerate (schemaNames s2)).map (fun q => (q.2, q.1)) := by
    rw [pos2Dict]
    congr 1
    rw [List.filter_eq_self]
    intro p hp
    exact (lookup_isSome_iff_mem s1 p.2).mpr
      (hsub2 p.2 (snd_mem_of_mem_enumerate hp))
  rw [orderMismatches, hcommon, hpos2, List.filterMap_eq_nil_iff]
  constructor
  · intro hf
    have hlen21 : (schemaNames s2).length ≤ (schemaNames s1).length :=
      (List.subperm_of_subset h2 (fun a ha => hsub2 a ha)).length_le
    apply List.ext_getElem?
    intro i
    by_cases hi : i < (schemaNames s1).length
    · obtain ⟨n, hget⟩ : ∃ n, (schemaNames s1)[i]? = some n :=
        ⟨_, List.getElem?_eq_getElem hi⟩
      have hmem1 : (i, n) ∈ enumerate (schemaNames s1) :=
        mem_enumerate_iff.mpr hget
      have hn1 : n ∈ schemaNames s1 := List.getElem?_mem hget
      have hs : (dictLookup
          ((enumerate (schemaNames s2)).map (fun q => (q.2, q.1))) n).isSome
          = true := by
        rw [dictLookup_isSome_iff, enumerate, map_fst_swap_enumerateFrom]
        exact hsub1 n hn1
      obtain ⟨j, hj⟩ := Option.isSome_iff_exists.mp hs
      have hfij := hf (i, n) hmem1
      simp only [hj] at hfij
      have hij : i = j := by
        by_contra hne
        rw [if_pos hne] at hfij
        cases hfij
      subst hij
      have hget2 : (schemaNames s2)[i]? = some n :=
        (dictLookup_swap_enumerate_iff h2).mp hj
      rw [hget, hget2]
    · have h1n : (schemaNames s1)[i]? = none :=
        List.getElem?_eq_none (by omega)
      have h2n : (schemaNames s2)[i]? = none :=
        List.getElem?_eq_none (by omega)
      rw [h1n, h2n]
  · intro heq p hp
    obtain ⟨i, n⟩ := p
    have hget := mem_enumerate_iff.mp hp
    have hget2 : (schemaNames s2)[i]? = some n := by
      rw [← heq]
      exact hget
    have hlk := (dictLookup_swap_enumerate_iff h2).mpr hget2
    simp [hlk]

/-- C3: swapping the two schemas (column names unique on each side, per the
data model) preserves `has_differences`, and `only_in_first` of one order is
`only_in_second` of the other. -/
theorem C3_swap_invariance (s1 s2 : List ColumnEntry)
    (h1 : (schemaNames s1).Nodup) (h2 : (schemaNames s2).Nodup) :
    (compare_schemas_lists s1 s2).has_differences
      = (compare_schemas_lists s2 s1).has_differences ∧
    (compare_schemas_lists s1 s2).only_in_first
      = (compare_schemas_lists s2 s1).only_in_second := by
  refine ⟨?_, rfl⟩
  simp only [compare_schemas_lists, SchemaComparisonResult.has_differences]
  by_cases hA : onlyInFirst s1 s2 = []
  · by_cases hB : onlyInSecond s1 s2 = []
    · have hB' : onlyInFirst s2 s1 = [] := hB
      have hA' : onlyInSecond s2 s1 = [] := hA
      have hsub1 := (onlyInFirst_eq_nil_iff s1 s2).mp hA
      have hsub2 := (onlyInFirst_eq_nil_iff s2 s1).mp hB'
      have htm : typeMismatches s1 s2 = [] ↔ typeMismatches s2 s1 = [] := by
        rw [typeMismatches_eq_nil_iff s1 s2 hsub1,
          typeMismatches_eq_nil_iff s2 s1 hsub2]
        constructor
        · intro h n t1 t2 ha hb
          exact (h n t2 t1 hb ha).symm
        · intro h n t1 t2 ha hb
          exact (h n t2 t1 hb ha).symm
      have hom : orderMismatches s1 s2 = [] ↔ orderMismatches s2 s1 = [] := by
        rw [orderMismatches_eq_nil_iff s1 s2 h2 hsub1 hsub2,
          orderMismatches_eq_nil_iff s2 s1 h1 hsub2 hsub1]
        exact eq_comm
      rw [hA, hB, hA', hB']
      simp only [List.isEmpty_nil, Bool.not_true, Bool.false_or]
      by_cases h3 : typeMismatches s1 s2 = [] <;>
        by_cases h4 : orderMismatches s1 s2 = []
      · rw [h3, htm.mp h3, h4, hom.mp h4]
      · have b1 : (orderMismatches s1 s2).isEmpty = false :=
          Bool.eq_false_iff.mpr (fun hc => h4 (List.isEmpty_iff.mp hc))
        have b2 : (orderMismatches s2 s1).isEmpty = false :=
          Bool.eq_false_iff.mpr
            (fun hc => h4 (hom.mpr (List.isEmpty_iff.mp hc)))
        rw [h3, htm.mp h3, b1, b2]
      · have b1 : (typeMismatches s1 s2).isEmpty = false :=
          Bool.eq_false_iff.mpr (fun hc => h3 (List.isEmpty_iff.mp hc))
        have b2 : (typeMismatches s2 s1).isEmpty = false :=
          Bool.eq_false_iff.mpr
            (fun hc => h3 (htm.mpr (List.isEmpty_iff.mp hc)))
        rw [b1, b2]
        simp
      · have b1 : (typeMismatches s1 s2).isEmpty = false :=
          Bool.eq_false_iff.mpr (fun hc => h3 (List.isEmpty_iff.mp hc))
        have b2 : (typeMismatches s2 s1).isEmpty = false :=
          Bool.eq_false_iff.mpr
            (fun hc => h3 (htm.mpr (List.isEmpty_iff.mp hc)))
        rw [b1, b2]
        simp
    · have hB2 : onlyInFirst s2 s1 = onlyInSecond s1 s2 := rfl
      have b1 : (onlyInSecond s1 s2).isEmpty = false :=
        Bool.eq_false_iff.mpr (fun hc => hB (List.isEmpty_iff.mp hc))
      rw [hB2, b1]
      simp
  · have hA2 : onlyInSecond s2 s1 = onlyInFirst s1 s2 := rfl
    have b1 : (onlyInFirst s1 s2).isEmpty = false :=
      Bool.eq_false_iff.mpr (fun hc => hA (List.isEmpty_iff.mp hc))
    rw [hA2, b1]
    simp

/-- Witness for C3 at concrete schemas `[id, age]` and `[age]`. -/
theorem C3_witness :
    (compare_schemas_lists [⟨"id", "int64", "integer"⟩,
        ⟨"age", "int64", "integer"⟩]
        [⟨"age", "int64", "integer"⟩]).has_differences
      = (compare_schemas_lists [⟨"age", "int64", "integer"⟩]
        [⟨"id", "int64", "integer"⟩,
          ⟨"age", "int64", "integer"⟩]).has_differences ∧
    (compare_schemas_lists [⟨"id", "int64", "integer"⟩,
        ⟨"age", "int64", "integer"⟩]
        [⟨"age", "int64", "integer"⟩]).only_in_first
      = (compare_schemas_lists [⟨"age", "int64", "integer"⟩]
        [⟨"id", "int64", "integer"⟩,
          ⟨"age", "int64", "integer"⟩]).only_in_second :=
  C3_swap_invariance
    [⟨"id", "int64", "integer"⟩, ⟨"age", "int64", "integer"⟩]
    [⟨"age", "int64", "integer"⟩] (by decide) (by decide)

end ParquetViewer
